import Mathlib

/-!
Shallow embedding of the per-tick price-generation core of
`src/generator.py` (paper-trader-data).

Python floats are modelled as real numbers; the wall-clock fields
(hour, minute, second) as naturals; the boundary trend as an integer.
A Python computation that can raise (`math.sqrt` of a negative number,
`math.log` of a non-positive number) is modelled as an `Option`, with
`none` standing for the raised `ValueError`.
-/

namespace PaperTrader

/-- GARCH baseline variance (`GARCH_OMEGA` in generator.py). -/
def GARCH_OMEGA : ℝ := 1e-7

/-- GARCH reaction coefficient (`GARCH_ALPHA`). -/
def GARCH_ALPHA : ℝ := 0.06

/-- GARCH persistence coefficient (`GARCH_BETA`). -/
def GARCH_BETA : ℝ := 0.88

/-- GARCH asymmetric leverage coefficient (`GARCH_GAMMA`). -/
def GARCH_GAMMA : ℝ := 0.06

/-- Per-timeframe mean-reversion strengths, the five values stored in
`SyntheticStream.reversion_strength` (keyed s1, m1, m5, h1, d1). -/
structure Strengths where
  s1 : ℝ
  m1 : ℝ
  m5 : ℝ
  h1 : ℝ
  d1 : ℝ

/-- The whole per-instrument simulation state, the fields of
`SyntheticStream.__init__` in their Python order. -/
structure SimState where
  p : ℝ
  d1_open : ℝ
  h1_open : ℝ
  m5_open : ℝ
  m1_open : ℝ
  reversion_strength : Strengths
  garch_variance : ℝ
  prev_return : ℝ
  boundary_trend : ℤ

/-- One emitted OHLC bar, the dict returned by `_generate_one_second`. -/
structure Bar where
  t : ℤ
  o : ℝ
  h : ℝ
  l : ℝ
  c : ℝ

/-- The flat record `SyntheticStream.to_dict` produces (`self.__dict__`):
one entry per stored field. -/
structure StateDict where
  p : ℝ
  d1_open : ℝ
  h1_open : ℝ
  m5_open : ℝ
  m1_open : ℝ
  reversion_strength : Strengths
  garch_variance : ℝ
  prev_return : ℝ
  boundary_trend : ℤ

/-- `SyntheticStream.to_dict`: dumps every stored field. -/
def to_dict (st : SimState) : StateDict :=
  ⟨st.p, st.d1_open, st.h1_open, st.m5_open, st.m1_open,
   st.reversion_strength, st.garch_variance, st.prev_return, st.boundary_trend⟩

/-- `SyntheticStream.from_dict`: builds a fresh instance with `cls()` (whose
freshly sampled fields are the `fresh` argument here) and then overwrites its
entire `__dict__` with `data`, so every field of `fresh` is discarded. -/
def from_dict (_fresh : SimState) (data : StateDict) : SimState :=
  ⟨data.p, data.d1_open, data.h1_open, data.m5_open, data.m1_open,
   data.reversion_strength, data.garch_variance, data.prev_return, data.boundary_trend⟩

/-- `_u_seasonality(minute_of_day)`: the U-shaped intraday volatility factor
`0.75 + 0.5 * cos(2*pi*(minute_of_day/1440))**2`. -/
noncomputable def _u_seasonality (minute_of_day : ℕ) : ℝ :=
  0.75 + 0.5 * Real.cos (2 * Real.pi * ((minute_of_day : ℝ) / 1440)) ^ 2

/-- The leverage term of `_get_garch_volatility`:
`GARCH_GAMMA * (prev_return ** 2 if prev_return < 0 else 0.0)`. -/
noncomputable def leverage (prev_return : ℝ) : ℝ :=
  GARCH_GAMMA * (if prev_return < 0 then prev_return ^ 2 else 0)

/-- The `new_variance` expression of `_get_garch_volatility`:
`GARCH_OMEGA + GARCH_ALPHA * prev_return ** 2 + leverage_effect + GARCH_BETA * prev_variance`. -/
noncomputable def newVariance (prev_return prev_variance : ℝ) : ℝ :=
  GARCH_OMEGA + GARCH_ALPHA * prev_return ^ 2 + leverage prev_return +
    GARCH_BETA * prev_variance

/-- `_get_garch_volatility(prev_return, prev_variance)`: returns
`(max(1e-9, sqrt(new_variance)), new_variance)`. `math.sqrt` raises
`ValueError` when `new_variance` is negative, modelled by `none`. -/
noncomputable def _get_garch_volatility (prev_return prev_variance : ℝ) :
    Option (ℝ × ℝ) :=
  if newVariance prev_return prev_variance < 0 then none
  else some (max 1e-9 (Real.sqrt (newVariance prev_return prev_variance)),
             newVariance prev_return prev_variance)

/-- Step 1 of `_generate_one_second` (lines 95-99): the time-based anchor
update. Inside `if now_dt.second == 0` the code sets `m1_open` to the current
price and, under their own nested conditions, `m5_open`, `h1_open` and
`d1_open`. -/
def updateAnchors (st : SimState) (hour minute second : ℕ) : SimState :=
  if second = 0 then
    { st with
      m1_open := st.p,
      m5_open := if minute % 5 = 0 then st.p else st.m5_open,
      h1_open := if minute = 0 then st.p else st.h1_open,
      d1_open := if hour = 0 ∧ minute = 0 then st.p else st.d1_open }
  else st

/-- Lower edge of one timeframe band: `anchor * (1 - strength)`. -/
def bandLower (anchor strength : ℝ) : ℝ := anchor * (1 - strength)

/-- Upper edge of one timeframe band: `anchor * (1 + strength)`. -/
def bandUpper (anchor strength : ℝ) : ℝ := anchor * (1 + strength)

/-- `lower_bound = max(b[0] for b in bands.values())`, the bands being built
from `s1_open = st.p` and the stored anchors in dict order s1, m1, m5, h1, d1. -/
def effectiveLower (st : SimState) : ℝ :=
  max (max (max (max (bandLower st.p st.reversion_strength.s1)
    (bandLower st.m1_open st.reversion_strength.m1))
    (bandLower st.m5_open st.reversion_strength.m5))
    (bandLower st.h1_open st.reversion_strength.h1))
    (bandLower st.d1_open st.reversion_strength.d1)

/-- `upper_bound = min(b[1] for b in bands.values())`. -/
def effectiveUpper (st : SimState) : ℝ :=
  min (min (min (min (bandUpper st.p st.reversion_strength.s1)
    (bandUpper st.m1_open st.reversion_strength.m1))
    (bandUpper st.m5_open st.reversion_strength.m5))
    (bandUpper st.h1_open st.reversion_strength.h1))
    (bandUpper st.d1_open st.reversion_strength.d1)

/-- Step 5 of `_generate_one_second` (lines 134-145): boundary enforcement.
Returns the final close and the new `boundary_trend`. -/
noncomputable def enforce (trend : ℤ) (c lower upper : ℝ) : ℝ × ℤ :=
  if c ≥ upper then (upper, -1)
  else if c ≤ lower then (lower, 1)
  else if trend ≠ 0 ∧
      ((trend = -1 ∧ c < (upper + lower) / 2) ∨ (trend = 1 ∧ c > (upper + lower) / 2)) then
    (c, 0)
  else (c, trend)

/-- Python `round(x, 2)`: rounding to two decimal places. CPython rounds an
exact half-cent to even; this model rounds it up, a difference no claim below
touches (no input of theirs lands on a half cent). -/
noncomputable def round2 (x : ℝ) : ℝ := (round (x * 100) : ℤ) / 100

/-- `_generate_one_second(st, now_dt)`: one tick. `tms` is the epoch-millisecond
timestamp `int(now_dt.timestamp() * 1000)`; `hour`, `minute`, `second` the
wall-clock fields; `z` the standard-normal draw `random.gauss(0, 1)`.
Returns the post-tick state and the emitted bar, or `none` where the Python
raises (`math.sqrt` of a negative variance, `math.log` of a non-positive
ratio). -/
noncomputable def step (st : SimState) (tms : ℤ) (hour minute second : ℕ)
    (z : ℝ) : Option (SimState × Bar) :=
  let st1 := updateAnchors st hour minute second
  match _get_garch_volatility st1.prev_return st1.garch_variance with
  | none => none
  | some (sigma, nv) =>
    let seasonal_vol := sigma * _u_seasonality (hour * 60 + minute)
    let lower_bound := effectiveLower st1
    let upper_bound := effectiveUpper st1
    let o := st1.p
    let c0 := o * Real.exp (z * seasonal_vol +
      (st1.boundary_trend : ℝ) * seasonal_vol * 0.1)
    let ec := enforce st1.boundary_trend c0 lower_bound upper_bound
    if o ≠ 0 ∧ ec.1 / o ≤ 0 then none
    else some
      ({ st1 with
          garch_variance := nv,
          p := ec.1,
          boundary_trend := ec.2,
          prev_return := if o ≠ 0 then Real.log (ec.1 / o) else 0 },
       { t := tms,
         o := round2 o,
         h := round2 (max o ec.1),
         l := round2 (min o ec.1),
         c := round2 ec.1 })

/-- Runs `step` over a list of tick inputs `(tms, hour, minute, second, z)`,
collecting the emitted bars; `none` as soon as one tick raises. -/
noncomputable def run (st : SimState) : List (ℤ × ℕ × ℕ × ℕ × ℝ) → Option (List Bar)
  | [] => some []
  | (tms, hour, minute, second, z) :: rest =>
    match step st tms hour minute second z with
    | none => none
    | some (st2, bar) => (run st2 rest).map (bar :: ·)

/-- The fixed reversion strengths of the concrete scenario in the spec
(section 8): s1 0.01, m1 0.025, m5 0.035, h1 0.05, d1 0.05. -/
def stdStr : Strengths := ⟨0.01, 0.025, 0.035, 0.05, 0.05⟩

/-- Baseline concrete state: price 100, every anchor 100, the standard
strengths, variance 1e-5, zero previous return, neutral trend. -/
def sBase : SimState := ⟨100, 100, 100, 100, 100, stdStr, 1e-5, 0, 0⟩

/-- The state `sBase` reaches after one tick at second 1 with draw 0: only
the GARCH variance moves, to `omega + beta * 1e-5 = 8.9e-6`. -/
def sBaseNext : SimState := ⟨100, 100, 100, 100, 100, stdStr, 8.9e-6, 0, 0⟩

/-- The bar that tick emits: flat at 100. -/
def barBase : Bar := ⟨0, 100, 100, 100, 100⟩

/-- Concrete state whose effective boundary is inverted: the minute anchor
has drifted to 200 while the price sits at 100, so the s1 band tops out at
101 while the m1 band bottoms at 195. -/
def cexSt : SimState := ⟨100, 100, 100, 100, 200, stdStr, 1e-5, 0, 0⟩

/-- The state after one tick of `cexSt` at second 1 with draw 0: the
candidate 100 is below the (inverted) lower bound 195, so the close clamps
to 195 and the trend turns upward. -/
noncomputable def cexNext : SimState :=
  ⟨195, 100, 100, 100, 200, stdStr, 8.9e-6, Real.log (195 / 100), 1⟩

/-- The bar that inverted tick emits. -/
def cexBar : Bar := ⟨0, 100, 195, 100, 195⟩

/-- Concrete state for the pre-update-boundary counterexample: the stored
minute anchor is 102 (its band floor 99.45 sets the pre-update effective
lower bound), and the variance is tuned so the next sigma is exactly 0.003. -/
noncomputable def s4 : SimState := ⟨100, 100, 100, 100, 102, stdStr, 8.9e-6 / 0.88, 0, 0⟩

/-- The state after one tick of `s4` at 06:00:00 with draw -10: the minute
anchor resets to 100, the candidate falls below the post-update lower bound
99 and is clamped there. -/
noncomputable def s4Next : SimState :=
  ⟨99, 100, 100, 100, 100, stdStr, 9e-6, Real.log (99 / 100), 1⟩

/-- The bar that tick emits: open 100, close clamped at 99. -/
def bar4 : Bar := ⟨0, 100, 100, 99, 99⟩

/-- The state `s4` reaches after its anchor update at 06:00:00: the minute
anchor has been reset from 102 to the price 100. -/
noncomputable def s4Upd : SimState :=
  ⟨100, 100, 100, 100, 100, stdStr, 8.9e-6 / 0.88, 0, 0⟩

section Lemmas

/-- Rounding to two decimals fixes any real whose hundredfold is an integer. -/
lemma round2_eq_self (x : ℝ) (k : ℤ) (h : x * 100 = (k : ℝ)) : round2 x = x := by
  rw [round2, h, round_intCast]
  have : x = (k : ℝ) / 100 := by linarith
  rw [this]

lemma round2_100 : round2 (100 : ℝ) = 100 := round2_eq_self 100 10000 (by norm_num)

lemma round2_99 : round2 (99 : ℝ) = 99 := round2_eq_self 99 9900 (by norm_num)

lemma round2_195 : round2 (195 : ℝ) = 195 := round2_eq_self 195 19500 (by norm_num)

/-- Seasonality at minute 0 (midnight): the cosine is 1, the factor 1.25. -/
lemma u_0 : _u_seasonality 0 = 1.25 := by
  rw [_u_seasonality]
  norm_num

/-- Seasonality at minute 360 (06:00): the cosine vanishes, the factor is 0.75. -/
lemma u_360 : _u_seasonality 360 = 0.75 := by
  rw [_u_seasonality,
    show 2 * Real.pi * (((360 : ℕ) : ℝ) / 1440) = Real.pi / 2 by push_cast; ring,
    Real.cos_pi_div_two]
  norm_num

/-- Seasonality at minute 720 (midday): the cosine is -1, the factor 1.25. -/
lemma u_720 : _u_seasonality 720 = 1.25 := by
  rw [_u_seasonality,
    show 2 * Real.pi * (((720 : ℕ) : ℝ) / 1440) = Real.pi by push_cast; ring,
    Real.cos_pi]
  norm_num

/-- Seasonality at minute 1080 (18:00): the cosine vanishes, the factor is 0.75. -/
lemma u_1080 : _u_seasonality 1080 = 0.75 := by
  rw [_u_seasonality,
    show 2 * Real.pi * (((1080 : ℕ) : ℝ) / 1440) = Real.pi + Real.pi / 2 by
      push_cast; ring,
    Real.cos_add, Real.cos_pi, Real.sin_pi, Real.cos_pi_div_two]
  norm_num

/-- The seasonality factor is bounded below by 0.75 at every minute. -/
lemma u_lower (m : ℕ) : 0.75 ≤ _u_seasonality m := by
  rw [_u_seasonality]
  nlinarith [sq_nonneg (Real.cos (2 * Real.pi * ((m : ℝ) / 1440)))]

/-- The seasonality factor is bounded above by 1.25 at every minute. -/
lemma u_upper (m : ℕ) : _u_seasonality m ≤ 1.25 := by
  rw [_u_seasonality]
  nlinarith [Real.cos_sq_le_one (2 * Real.pi * ((m : ℝ) / 1440))]

/-- Half-day shift: adding 720 minutes flips the sign of the cosine and
leaves its square unchanged. -/
lemma u_period (m : ℕ) : _u_seasonality (m + 720) = _u_seasonality m := by
  rw [_u_seasonality, _u_seasonality,
    show 2 * Real.pi * (((m + 720 : ℕ) : ℝ) / 1440)
      = 2 * Real.pi * ((m : ℝ) / 1440) + Real.pi by push_cast; ring,
    Real.cos_add, Real.cos_pi, Real.sin_pi]
  ring

/-- The factor at minute 1439 is not 1.25: the angle is not a multiple of pi,
so the squared cosine is strictly below 1. -/
lemma u_1439_ne : _u_seasonality 1439 ≠ 1.25 := by
  rw [_u_seasonality]
  intro h
  have hsq : Real.cos (2 * Real.pi * (((1439 : ℕ) : ℝ) / 1440)) ^ 2 = 1 := by
    nlinarith
  have hsin : Real.sin (2 * Real.pi * (((1439 : ℕ) : ℝ) / 1440)) = 0 := by
    have hpyth := Real.sin_sq_add_cos_sq (2 * Real.pi * (((1439 : ℕ) : ℝ) / 1440))
    have h0 : Real.sin (2 * Real.pi * (((1439 : ℕ) : ℝ) / 1440)) ^ 2 = 0 := by
      linarith
    exact pow_eq_zero_iff two_ne_zero |>.mp h0
  rw [Real.sin_eq_zero_iff] at hsin
  obtain ⟨n, hn⟩ := hsin
  rw [show 2 * Real.pi * (((1439 : ℕ) : ℝ) / 1440) = (1439 / 720 : ℝ) * Real.pi by
    push_cast; ring] at hn
  have hn2 : ((720 * n : ℤ) : ℝ) * Real.pi = (1439 : ℝ) * Real.pi := by
    push_cast
    nlinarith [hn]
  have hn3 : (720 * n : ℤ) = 1439 := by
    exact_mod_cast mul_right_cancel₀ Real.pi_ne_zero hn2
  omega

/-- Unfolding a successful `_get_garch_volatility` call. -/
lemma garch_some_elim {r v sigma nv : ℝ}
    (h : _get_garch_volatility r v = some (sigma, nv)) :
    nv = newVariance r v ∧ sigma = max 1e-9 (Real.sqrt (newVariance r v)) ∧
    ¬ newVariance r v < 0 := by
  rw [_get_garch_volatility] at h
  split at h
  · exact absurd h (by simp)
  · next hneg =>
    obtain ⟨hs, hn⟩ := Prod.mk.injEq .. ▸ (Option.some.injEq .. ▸ h :)
    exact ⟨hn.symm, hs.symm, hneg⟩

/-- The GARCH recursion succeeds with the stated sigma whenever its result is
nonnegative. -/
lemma garch_some_intro (r v : ℝ) (h : 0 ≤ newVariance r v) :
    _get_garch_volatility r v
      = some (max 1e-9 (Real.sqrt (newVariance r v)), newVariance r v) := by
  rw [_get_garch_volatility, if_neg (not_lt.mpr h)]

/-- The anchor update never touches the price. -/
lemma updateAnchors_p (st : SimState) (hour minute second : ℕ) :
    (updateAnchors st hour minute second).p = st.p := by
  rw [updateAnchors]; split <;> rfl

/-- The anchor update never touches the previous return. -/
lemma updateAnchors_prev (st : SimState) (hour minute second : ℕ) :
    (updateAnchors st hour minute second).prev_return = st.prev_return := by
  rw [updateAnchors]; split <;> rfl

/-- The anchor update never touches the GARCH variance. -/
lemma updateAnchors_var (st : SimState) (hour minute second : ℕ) :
    (updateAnchors st hour minute second).garch_variance = st.garch_variance := by
  rw [updateAnchors]; split <;> rfl

/-- The anchor update never touches the boundary trend. -/
lemma updateAnchors_trend (st : SimState) (hour minute second : ℕ) :
    (updateAnchors st hour minute second).boundary_trend = st.boundary_trend := by
  rw [updateAnchors]; split <;> rfl

/-- When the boundary is consistent, the enforced close stays inside it. -/
lemma enforce_within (t : ℤ) (c lo hi : ℝ) (h : lo ≤ hi) :
    lo ≤ (enforce t c lo hi).1 ∧ (enforce t c lo hi).1 ≤ hi := by
  rw [enforce]
  split_ifs with h1 h2 h3
  · exact ⟨h, le_refl hi⟩
  · exact ⟨le_refl lo, h⟩
  · exact ⟨le_of_lt (not_le.mp h2), le_of_lt (not_le.mp (fun hc => h1 hc))⟩
  · exact ⟨le_of_lt (not_le.mp h2), le_of_lt (not_le.mp (fun hc => h1 hc))⟩

/-- Anatomy of a successful tick: the GARCH call succeeded, and the post
state and the bar are exactly the expressions `_generate_one_second` builds
from the anchor-updated state and the enforced close. -/
lemma step_some_elim {st : SimState} {tms : ℤ} {hour minute second : ℕ} {z : ℝ}
    {st2 : SimState} {bar : Bar}
    (hstep : step st tms hour minute second z = some (st2, bar)) :
    ∃ sigma nv,
      _get_garch_volatility (updateAnchors st hour minute second).prev_return
        (updateAnchors st hour minute second).garch_variance = some (sigma, nv) ∧
      (fun st1 ec =>
        st2 = { st1 with
                garch_variance := nv, p := ec.1, boundary_trend := ec.2,
                prev_return := if st1.p ≠ 0 then Real.log (ec.1 / st1.p) else 0 } ∧
        bar = { t := tms, o := round2 st1.p, h := round2 (max st1.p ec.1),
                l := round2 (min st1.p ec.1), c := round2 ec.1 })
      (updateAnchors st hour minute second)
      (enforce (updateAnchors st hour minute second).boundary_trend
        ((updateAnchors st hour minute second).p * Real.exp
          (z * (sigma * _u_seasonality (hour * 60 + minute)) +
           ((updateAnchors st hour minute second).boundary_trend : ℝ) *
             (sigma * _u_seasonality (hour * 60 + minute)) * 0.1))
        (effectiveLower (updateAnchors st hour minute second))
        (effectiveUpper (updateAnchors st hour minute second))) := by
  rw [step] at hstep
  split at hstep
  · exact absurd hstep (by simp)
  · next sigma nv heq =>
    refine ⟨sigma, nv, heq, ?_⟩
    simp only [] at hstep
    split at hstep
    · exact absurd hstep (by simp)
    · simp only [Option.some.injEq, Prod.mk.injEq] at hstep
      exact ⟨hstep.1.symm, hstep.2.symm⟩

/-- GARCH call on the baseline state: variance 1e-5 steps to 8.9e-6. -/
lemma garch_1e5 : _get_garch_volatility 0 1e-5
    = some (max 1e-9 (Real.sqrt 8.9e-6), 8.9e-6) := by
  have hnv : newVariance 0 1e-5 = 8.9e-6 := by
    norm_num [newVariance, leverage, GARCH_OMEGA, GARCH_ALPHA, GARCH_BETA, GARCH_GAMMA]
  rw [_get_garch_volatility, hnv]
  norm_num

/-- GARCH call on the tuned variance of `s4`: the new variance is exactly
9e-6, whose square root is exactly 0.003. -/
lemma garch_s4 : _get_garch_volatility 0 (8.9e-6 / 0.88) = some (0.003, 9e-6) := by
  have hnv : newVariance 0 (8.9e-6 / 0.88) = 9e-6 := by
    norm_num [newVariance, leverage, GARCH_OMEGA, GARCH_ALPHA, GARCH_BETA, GARCH_GAMMA]
  rw [_get_garch_volatility, hnv, if_neg (by norm_num),
    show Real.sqrt 9e-6 = 0.003 by
      rw [show (9e-6 : ℝ) = 0.003 ^ 2 by norm_num, Real.sqrt_sq (by norm_num)],
    max_eq_right (by norm_num)]

/-- Effective bounds of the baseline all-anchors-100 state. -/
lemma effLower_sBase : effectiveLower sBase = 99 := by
  norm_num [effectiveLower, bandLower, sBase, stdStr, max_def]

lemma effUpper_sBase : effectiveUpper sBase = 101 := by
  norm_num [effectiveUpper, bandUpper, sBase, stdStr, min_def]

/-- Effective bounds of the drifted-anchor state `cexSt`: inverted, the
lower bound 195 sits above the upper bound 101. -/
lemma effLower_cexSt : effectiveLower cexSt = 195 := by
  norm_num [effectiveLower, bandLower, cexSt, stdStr, max_def]

lemma effUpper_cexSt : effectiveUpper cexSt = 101 := by
  norm_num [effectiveUpper, bandUpper, cexSt, stdStr, min_def]

/-- Effective bounds of `s4` before its anchor update. -/
lemma effLower_s4 : effectiveLower s4 = 99.45 := by
  norm_num [effectiveLower, bandLower, s4, stdStr, max_def]

lemma effUpper_s4 : effectiveUpper s4 = 101 := by
  norm_num [effectiveUpper, bandUpper, s4, stdStr, min_def]

/-- Effective bounds of `s4` after its anchor update. -/
lemma effLower_s4Upd : effectiveLower s4Upd = 99 := by
  norm_num [effectiveLower, bandLower, s4Upd, stdStr, max_def]

lemma effUpper_s4Upd : effectiveUpper s4Upd = 101 := by
  norm_num [effectiveUpper, bandUpper, s4Upd, stdStr, min_def]

/-- Fully evaluated tick of the baseline state at second 1 with draw 0. -/
lemma step_sBase : step sBase 0 0 0 1 0 = some (sBaseNext, barBase) := by
  have h1 : updateAnchors sBase 0 0 1 = sBase := rfl
  rw [step, h1]
  rw [show sBase.prev_return = 0 from rfl, show sBase.garch_variance = 1e-5 from rfl,
    garch_1e5]
  simp only [effLower_sBase, effUpper_sBase]
  rw [show (sBase.boundary_trend : ℝ) = 0 by norm_num [sBase]]
  rw [show sBase.p * Real.exp (0 * (max 1e-9 (Real.sqrt 8.9e-6) * _u_seasonality (0 * 60 + 0)) +
      0 * (max 1e-9 (Real.sqrt 8.9e-6) * _u_seasonality (0 * 60 + 0)) * 0.1) = 100 by
    rw [show (0 : ℝ) * (max 1e-9 (Real.sqrt 8.9e-6) * _u_seasonality (0 * 60 + 0)) +
      0 * (max 1e-9 (Real.sqrt 8.9e-6) * _u_seasonality (0 * 60 + 0)) * 0.1 = 0 by ring,
      Real.exp_zero]
    norm_num [sBase]]
  rw [show enforce sBase.boundary_trend 100 99 101 = (100, sBase.boundary_trend) by
    rw [enforce]; norm_num [sBase]]
  rw [if_neg (by norm_num [sBase] :
    ¬ (sBase.p ≠ 0 ∧ (100 : ℝ) / sBase.p ≤ 0))]
  simp only [sBase, sBaseNext, barBase, Option.some.injEq, Prod.mk.injEq,
    SimState.mk.injEq, Bar.mk.injEq]
  norm_num [Real.log_one, round2_100]

/-- Fully evaluated tick of the inverted-boundary state at second 1 with
draw 0: candidate 100, clamped up to the lower bound 195. -/
lemma step_cexSt : step cexSt 0 0 0 1 0 = some (cexNext, cexBar) := by
  have h1 : updateAnchors cexSt 0 0 1 = cexSt := rfl
  rw [step, h1]
  rw [show cexSt.prev_return = 0 from rfl, show cexSt.garch_variance = 1e-5 from rfl,
    garch_1e5]
  simp only [effLower_cexSt, effUpper_cexSt]
  rw [show (cexSt.boundary_trend : ℝ) = 0 by norm_num [cexSt]]
  rw [show cexSt.p * Real.exp (0 * (max 1e-9 (Real.sqrt 8.9e-6) * _u_seasonality (0 * 60 + 0)) +
      0 * (max 1e-9 (Real.sqrt 8.9e-6) * _u_seasonality (0 * 60 + 0)) * 0.1) = 100 by
    rw [show (0 : ℝ) * (max 1e-9 (Real.sqrt 8.9e-6) * _u_seasonality (0 * 60 + 0)) +
      0 * (max 1e-9 (Real.sqrt 8.9e-6) * _u_seasonality (0 * 60 + 0)) * 0.1 = 0 by ring,
      Real.exp_zero]
    norm_num [cexSt]]
  rw [show enforce cexSt.boundary_trend 100 195 101 = (195, 1) by
    rw [enforce]; norm_num [cexSt]]
  rw [if_neg (by norm_num [cexSt] :
    ¬ (cexSt.p ≠ 0 ∧ (195 : ℝ) / cexSt.p ≤ 0))]
  simp only [cexSt, cexNext, cexBar, Option.some.injEq, Prod.mk.injEq,
    SimState.mk.injEq, Bar.mk.injEq]
  norm_num [round2_100, round2_195]

/-- Concrete exponential bound used by the `s4` tick: `exp(-0.0225) <= 0.99`. -/
lemma exp_neg_bound : Real.exp (-0.0225) ≤ 0.99 := by
  have h1 : (1.0225 : ℝ) ≤ Real.exp 0.0225 := by
    have := Real.add_one_le_exp (0.0225 : ℝ)
    linarith
  rw [show (-0.0225 : ℝ) = -(0.0225) by norm_num, Real.exp_neg]
  have hpos : (0 : ℝ) < Real.exp 0.0225 := Real.exp_pos _
  have h3 : (Real.exp 0.0225)⁻¹ * Real.exp 0.0225 = 1 :=
    inv_mul_cancel₀ (ne_of_gt hpos)
  nlinarith [h1, hpos, h3]

/-- Fully evaluated tick of `s4` at 06:00:00 with draw -10: sigma is exactly
0.003, the seasonal factor exactly 0.75, the candidate 100*exp(-0.0225) falls
below the post-update lower bound 99 and is clamped there. -/
lemma step_s4 : step s4 0 6 0 0 (-10) = some (s4Next, bar4) := by
  have h1 : updateAnchors s4 6 0 0 = s4Upd := rfl
  rw [step, h1]
  rw [show s4Upd.prev_return = 0 from rfl,
    show s4Upd.garch_variance = 8.9e-6 / 0.88 from rfl, garch_s4]
  simp only [effLower_s4Upd, effUpper_s4Upd]
  rw [show _u_seasonality (6 * 60 + 0) = 0.75 by
    rw [show (6 * 60 + 0 : ℕ) = 360 by norm_num, _u_seasonality,
      show 2 * Real.pi * (((360 : ℕ) : ℝ) / 1440) = Real.pi / 2 by push_cast; ring,
      Real.cos_pi_div_two]
    norm_num]
  rw [show (s4Upd.boundary_trend : ℝ) = 0 by norm_num [s4Upd]]
  rw [show s4Upd.p * Real.exp (-10 * ((0.003 : ℝ) * 0.75) +
      0 * ((0.003 : ℝ) * 0.75) * 0.1) = 100 * Real.exp (-0.0225) by
    norm_num [s4Upd]]
  have hle : 100 * Real.exp (-0.0225) ≤ (99 : ℝ) := by
    nlinarith [exp_neg_bound, Real.exp_pos (-0.0225 : ℝ)]
  rw [show enforce s4Upd.boundary_trend (100 * Real.exp (-0.0225)) 99 101 = (99, 1) by
    rw [enforce]
    rw [if_neg (by push_neg; nlinarith [hle]), if_pos hle]]
  rw [if_neg (by norm_num [s4Upd] :
    ¬ (s4Upd.p ≠ 0 ∧ (99 : ℝ) / s4Upd.p ≤ 0))]
  simp only [s4Upd, s4Next, bar4, Option.some.injEq, Prod.mk.injEq,
    SimState.mk.injEq, Bar.mk.injEq]
  norm_num [round2_100, round2_99]

end Lemmas

section Claims

/-- C1, counterexample: at the concrete state `cexSt` the effective boundary
of the tick is inverted (upper 101 below lower 195), yet the emitted close is
195 — the inverted lower bound — and not the midpoint 148 that the claim
prescribes. -/
theorem C1_counterexample :
    effectiveUpper cexSt < effectiveLower cexSt ∧
    updateAnchors cexSt 0 0 1 = cexSt ∧
    step cexSt 0 0 0 1 0 = some (cexNext, cexBar) ∧
    cexNext.p = 195 ∧ cexBar.c = 195 ∧
    (195 : ℝ) ≠ (effectiveLower cexSt + effectiveUpper cexSt) / 2 := by
  refine ⟨?_, rfl, step_cexSt, rfl, rfl, ?_⟩
  · rw [effLower_cexSt, effUpper_cexSt]; norm_num
  · rw [effLower_cexSt, effUpper_cexSt]; norm_num

/-- C1 (amended): on a tick whose effective boundary is inverted
(`upper < lower`), there is no midpoint fallback: the clamping branches run
unchanged, so the close is the upper bound (trend -1) when the candidate is
at or above it, and otherwise the lower bound (trend +1). -/
theorem C1_inverted_no_midpoint (t : ℤ) (c lo hi : ℝ) (h : hi < lo) :
    enforce t c lo hi = if c ≥ hi then (hi, -1) else (lo, 1) := by
  rw [enforce]
  by_cases h1 : c ≥ hi
  · rw [if_pos h1, if_pos h1]
  · rw [if_neg h1, if_neg h1, if_pos (le_of_lt (lt_of_lt_of_le (not_le.mp h1) (le_of_lt h)))]

/-- C1, witness: a concrete inverted boundary, resolved to the lower clamp. -/
theorem C1_witness : enforce 0 100 195 101 = (195, 1) :=
  (C1_inverted_no_midpoint 0 100 195 101 (by norm_num)).trans (by norm_num)

/-- C2, counterexample: at `prevReturn = 0` and the finite
`prevVariance = (1e-10 - 1e-7)/0.88` the recursion value is exactly 1e-10 and
the code returns `sigma = max(1e-9, sqrt(1e-10)) = 1e-5`, which differs from
the claimed `sqrt(max(1e-9, 1e-10)) = sqrt(1e-9)`. -/
theorem C2_counterexample :
    _get_garch_volatility 0 ((1e-10 - 1e-7) / 0.88) = some (1e-5, 1e-10) ∧
    (1e-5 : ℝ) ≠ Real.sqrt (max 1e-9 1e-10) := by
  constructor
  · have hnv : newVariance 0 ((1e-10 - 1e-7) / 0.88) = 1e-10 := by
      norm_num [newVariance, leverage, GARCH_OMEGA, GARCH_ALPHA, GARCH_BETA, GARCH_GAMMA]
    rw [_get_garch_volatility, hnv, if_neg (by norm_num),
      show Real.sqrt 1e-10 = 1e-5 by
        rw [show (1e-10 : ℝ) = (1e-5) ^ 2 by norm_num, Real.sqrt_sq (by norm_num)],
      max_eq_right (by norm_num)]
  · rw [max_eq_left (by norm_num)]
    intro h
    have h2 : ((1e-5 : ℝ)) ^ 2 = Real.sqrt 1e-9 ^ 2 := by rw [h]
    rw [Real.sq_sqrt (by norm_num)] at h2
    norm_num at h2

/-- C2 (amended): whenever `nextVolatility` returns, the stored variance is
the unfloored recursion value `omega + alpha*r^2 + leverage + beta*v`, and the
returned sigma is `max(1e-9, sqrt(newVariance))` — the 1e-9 floor is applied
to sigma after the square root, not to the variance inside it. -/
theorem C2_sigma_floored_after_sqrt (r v sigma nv : ℝ)
    (h : _get_garch_volatility r v = some (sigma, nv)) :
    nv = GARCH_OMEGA + GARCH_ALPHA * r ^ 2 + leverage r + GARCH_BETA * v ∧
    sigma = max 1e-9 (Real.sqrt nv) := by
  obtain ⟨hnv, hs, -⟩ := garch_some_elim h
  refine ⟨by rw [hnv, newVariance], ?_⟩
  rw [hnv]
  exact hs

/-- C2, witness: the amended formula evaluated on the baseline inputs. -/
theorem C2_sigma_floored_after_sqrt_witness :
    (8.9e-6 : ℝ) = GARCH_OMEGA + GARCH_ALPHA * (0 : ℝ) ^ 2 + leverage 0 + GARCH_BETA * 1e-5 ∧
    max 1e-9 (Real.sqrt 8.9e-6) = max (1e-9 : ℝ) (Real.sqrt 8.9e-6) :=
  C2_sigma_floored_after_sqrt 0 1e-5 (max 1e-9 (Real.sqrt 8.9e-6)) 8.9e-6 garch_1e5

/-- C3, counterexample: the factor at midday (minute 720) is strictly larger
than at minute 360, so midday is not the minimum; and the factor at minute
1439 differs from the factor at minute 0, so the two are not equal maxima. -/
theorem C3_counterexample :
    _u_seasonality 360 < _u_seasonality 720 ∧
    _u_seasonality 1439 ≠ _u_seasonality 0 := by
  refine ⟨by rw [u_360, u_720]; norm_num, ?_⟩
  rw [u_0]
  exact u_1439_ne

/-- C3 (amended): the factor equals `0.75 + 0.5*cos(2*pi*m/1440)^2` and lies
in `[0.75, 1.25]` for every minute of the day; the minimum 0.75 is attained
at minutes 360 and 1080, and the maximum 1.25 at minute 0 (midnight) and at
minute 720 (midday) — not at minute 1439. -/
theorem C3_seasonality_range :
    (∀ m : ℕ, _u_seasonality m
      = 0.75 + 0.5 * Real.cos (2 * Real.pi * ((m : ℝ) / 1440)) ^ 2) ∧
    (∀ m : ℕ, m ≤ 1439 → 0.75 ≤ _u_seasonality m ∧ _u_seasonality m ≤ 1.25) ∧
    _u_seasonality 360 = 0.75 ∧ _u_seasonality 1080 = 0.75 ∧
    _u_seasonality 0 = 1.25 ∧ _u_seasonality 720 = 1.25 :=
  ⟨fun _ => rfl, fun m _ => ⟨u_lower m, u_upper m⟩, u_360, u_1080, u_0, u_720⟩

/-- C4, counterexample: from state `s4` the tick at 06:00:00 with draw -10
emits close 99, while the effective boundary computed from the anchors as
they stood before the anchor update is the consistent interval
[99.45, 101] — the close escapes it. -/
theorem C4_counterexample :
    effectiveLower s4 ≤ effectiveUpper s4 ∧
    step s4 0 6 0 0 (-10) = some (s4Next, bar4) ∧
    s4Next.p < effectiveLower s4 := by
  refine ⟨?_, step_s4, ?_⟩
  · rw [effLower_s4, effUpper_s4]; norm_num
  · rw [show s4Next.p = 99 from rfl, effLower_s4]; norm_num

/-- C4 (amended): on every successful tick whose effective boundary —
computed from the anchors as updated at the start of this tick — is not
inverted, the close (the updated price, before two-decimal rounding) lies
within that boundary. -/
theorem C4_close_within_updated_bounds (st : SimState) (tms : ℤ)
    (hour minute second : ℕ) (z : ℝ) (st2 : SimState) (bar : Bar)
    (hstep : step st tms hour minute second z = some (st2, bar))
    (hord : effectiveLower (updateAnchors st hour minute second) ≤
      effectiveUpper (updateAnchors st hour minute second)) :
    effectiveLower (updateAnchors st hour minute second) ≤ st2.p ∧
    st2.p ≤ effectiveUpper (updateAnchors st hour minute second) := by
  obtain ⟨sigma, nv, -, hst2, -⟩ := step_some_elim hstep
  rw [hst2]
  exact enforce_within _ _ _ _ hord

/-- C4, witness: the baseline tick stays within its bounds [99, 101]. -/
theorem C4_close_within_updated_bounds_witness :
    effectiveLower (updateAnchors sBase 0 0 1) ≤ sBaseNext.p ∧
    sBaseNext.p ≤ effectiveUpper (updateAnchors sBase 0 0 1) :=
  C4_close_within_updated_bounds sBase 0 0 0 1 0 sBaseNext barBase step_sBase
    (by rw [show updateAnchors sBase 0 0 1 = sBase from rfl,
      effLower_sBase, effUpper_sBase]; norm_num)

/-- C5, counterexample: at the finite inputs `prevReturn = 0`,
`prevVariance = -1` the recursion value is negative and `math.sqrt` raises,
so `nextVolatility` does not return. -/
theorem C5_counterexample : _get_garch_volatility 0 (-1) = none := by
  rw [_get_garch_volatility, if_pos]
  norm_num [newVariance, leverage, GARCH_OMEGA, GARCH_ALPHA, GARCH_BETA, GARCH_GAMMA]

/-- C5 (amended): for every pair of inputs whose previous variance is
nonnegative — in particular along every run started from the nonnegative
initial variance — `nextVolatility` returns without raising, and the sigma it
returns is at least 1e-9 and strictly positive. -/
theorem C5_garch_succeeds (r v : ℝ) (hv : 0 ≤ v) :
    ∃ sigma nv, _get_garch_volatility r v = some (sigma, nv) ∧
      1e-9 ≤ sigma ∧ 0 < sigma := by
  have hnv : 0 ≤ newVariance r v := by
    rw [newVariance, leverage, GARCH_OMEGA, GARCH_ALPHA, GARCH_BETA, GARCH_GAMMA]
    split_ifs <;> nlinarith [sq_nonneg r, hv]
  exact ⟨_, _, garch_some_intro r v hnv, le_max_left _ _,
    lt_of_lt_of_le (by norm_num) (le_max_left _ _)⟩

/-- C5, witness: success and positivity at the baseline inputs. -/
theorem C5_garch_succeeds_witness :
    ∃ sigma nv, _get_garch_volatility 0 1e-5 = some (sigma, nv) ∧
      1e-9 ≤ sigma ∧ 0 < sigma :=
  C5_garch_succeeds 0 1e-5 (by norm_num)

/-- C6 (confirmed): the boundary enforcer clamps to the upper bound with
trend -1 when the candidate is at or above it, else clamps to the lower bound
with trend +1 when at or below it, else zeroes a nonzero trend exactly when
the candidate has crossed the channel midpoint against it (keeping the
candidate as close), else leaves close and trend unchanged; consequently the
trend enters -1 (resp. +1) only on a tick whose close is exactly the upper
(resp. lower) bound. -/
theorem C6_boundary_enforcer (t : ℤ) (c lo hi : ℝ) :
    (c ≥ hi → enforce t c lo hi = (hi, -1)) ∧
    (c < hi → c ≤ lo → enforce t c lo hi = (lo, 1)) ∧
    (c < hi → lo < c → t ≠ 0 →
      ((t = -1 ∧ c < (hi + lo) / 2) ∨ (t = 1 ∧ c > (hi + lo) / 2)) →
      enforce t c lo hi = (c, 0)) ∧
    (c < hi → lo < c →
      ¬ (t ≠ 0 ∧ ((t = -1 ∧ c < (hi + lo) / 2) ∨ (t = 1 ∧ c > (hi + lo) / 2))) →
      enforce t c lo hi = (c, t)) ∧
    ((enforce t c lo hi).2 = -1 → t ≠ -1 → (enforce t c lo hi).1 = hi) ∧
    ((enforce t c lo hi).2 = 1 → t ≠ 1 → (enforce t c lo hi).1 = lo) := by
  rw [enforce]
  split_ifs with h1 h2 h3
  · exact ⟨fun _ => rfl, fun hc _ => absurd h1 (not_le.mpr hc),
      fun hc _ _ _ => absurd h1 (not_le.mpr hc),
      fun hc _ _ => absurd h1 (not_le.mpr hc),
      fun _ _ => rfl, fun hbad _ => absurd hbad (by norm_num)⟩
  · exact ⟨fun hc => absurd hc h1, fun _ _ => rfl,
      fun _ hlo _ _ => absurd h2 (not_le.mpr hlo),
      fun _ hlo _ => absurd h2 (not_le.mpr hlo),
      fun hbad _ => absurd hbad (by norm_num), fun _ _ => rfl⟩
  · exact ⟨fun hc => absurd hc h1, fun _ hc => absurd hc h2,
      fun _ _ _ _ => rfl, fun _ _ hn => absurd h3 hn,
      fun hbad _ => absurd hbad (by norm_num),
      fun hbad _ => absurd hbad (by norm_num)⟩
  · exact ⟨fun hc => absurd hc h1, fun _ hc => absurd hc h2,
      fun _ _ ht hcr => absurd ⟨ht, hcr⟩ h3, fun _ _ _ => rfl,
      fun ht hne => absurd ht hne, fun ht hne => absurd ht hne⟩

/-- C7 (confirmed): from any state with nonnegative variance, the recursion
value is at least omega = 1e-7; a successful volatility call returns a sigma
at least sqrt(1e-9) and a stored variance at least 1e-7; and after any
successful tick the stored variance is at least 1e-7, hence nonnegative. -/
theorem C7_variance_floor (st : SimState) (hv : 0 ≤ st.garch_variance) :
    1e-7 ≤ newVariance st.prev_return st.garch_variance ∧
    (∀ sigma nv,
      _get_garch_volatility st.prev_return st.garch_variance = some (sigma, nv) →
      Real.sqrt 1e-9 ≤ sigma ∧ 1e-7 ≤ nv) ∧
    (∀ tms hour minute second z st2 bar,
      step st tms hour minute second z = some (st2, bar) →
      1e-7 ≤ st2.garch_variance ∧ 0 ≤ st2.garch_variance) := by
  have hnv : 1e-7 ≤ newVariance st.prev_return st.garch_variance := by
    rw [newVariance, leverage, GARCH_OMEGA, GARCH_ALPHA, GARCH_BETA, GARCH_GAMMA]
    split_ifs <;> nlinarith [sq_nonneg st.prev_return, hv]
  have hmain : ∀ sigma nv,
      _get_garch_volatility st.prev_return st.garch_variance = some (sigma, nv) →
      Real.sqrt 1e-9 ≤ sigma ∧ 1e-7 ≤ nv := by
    intro sigma nv h
    obtain ⟨hn, hs, -⟩ := garch_some_elim h
    refine ⟨?_, by rw [hn]; exact hnv⟩
    rw [hs]
    exact le_trans (Real.sqrt_le_sqrt (le_trans (by norm_num) hnv)) (le_max_right _ _)
  refine ⟨hnv, hmain, ?_⟩
  intro tms hour minute second z st2 bar hstep
  obtain ⟨sigma, nv, hg, hst2, -⟩ := step_some_elim hstep
  rw [updateAnchors_prev, updateAnchors_var] at hg
  have hnv2 := (hmain sigma nv hg).2
  rw [hst2]
  exact ⟨hnv2, le_trans (by norm_num) hnv2⟩

/-- C7, witness: the baseline tick keeps the stored variance above 1e-7. -/
theorem C7_variance_floor_witness :
    1e-7 ≤ sBaseNext.garch_variance ∧ 0 ≤ sBaseNext.garch_variance :=
  (C7_variance_floor sBase (by norm_num [sBase])).2.2 0 0 0 1 0 sBaseNext barBase
    step_sBase

/-- C8 (confirmed): each anchor changes only when its reset condition holds
(`m1` at second 0; `m5` additionally at minute divisible by 5; `h1`
additionally at minute 0; `d1` additionally at hour 0), in which case it is
set to the price entering the tick; and a successful tick carries exactly
these updated anchors into the post state. -/
theorem C8_anchor_reset_conditions (st : SimState) (hour minute second : ℕ) :
    ((updateAnchors st hour minute second).m1_open
      = if second = 0 then st.p else st.m1_open) ∧
    ((updateAnchors st hour minute second).m5_open
      = if second = 0 ∧ minute % 5 = 0 then st.p else st.m5_open) ∧
    ((updateAnchors st hour minute second).h1_open
      = if second = 0 ∧ minute = 0 then st.p else st.h1_open) ∧
    ((updateAnchors st hour minute second).d1_open
      = if second = 0 ∧ hour = 0 ∧ minute = 0 then st.p else st.d1_open) ∧
    (∀ tms z st2 bar, step st tms hour minute second z = some (st2, bar) →
      st2.m1_open = (updateAnchors st hour minute second).m1_open ∧
      st2.m5_open = (updateAnchors st hour minute second).m5_open ∧
      st2.h1_open = (updateAnchors st hour minute second).h1_open ∧
      st2.d1_open = (updateAnchors st hour minute second).d1_open) := by
  refine ⟨?_, ?_, ?_, ?_, ?_⟩
  · by_cases hs : second = 0 <;> simp [updateAnchors, hs]
  · by_cases hs : second = 0 <;> simp [updateAnchors, hs]
  · by_cases hs : second = 0 <;> simp [updateAnchors, hs]
  · by_cases hs : second = 0 <;> simp [updateAnchors, hs]
  · intro tms z st2 bar hstep
    obtain ⟨sigma, nv, -, hst2, -⟩ := step_some_elim hstep
    rw [hst2]
    exact ⟨rfl, rfl, rfl, rfl⟩

/-- C9 (confirmed): restoring a serialized state gives back a state equal in
every field — whatever freshly sampled instance `from_dict` constructs and
then overwrites — and therefore the restored state produces the identical bar
sequence on any subsequent sequence of clock values and random draws. -/
theorem C9_snapshot_roundtrip (fresh s : SimState) :
    from_dict fresh (to_dict s) = s ∧
    ∀ ticks : List (ℤ × ℕ × ℕ × ℕ × ℝ),
      run (from_dict fresh (to_dict s)) ticks = run s ticks := by
  have h : from_dict fresh (to_dict s) = s := rfl
  exact ⟨h, fun ticks => by rw [h]⟩

/-- C10 (confirmed): the seasonality factor has period 720 minutes — the
factor at `m + 720` equals the factor at `m` — so the midday value equals the
midnight value 1.25, and the day has two equal troughs of 0.75 (minutes 360
and 1080) and two equal peaks of 1.25 (minutes 0 and 720) rather than a
single midday minimum. -/
theorem C10_seasonality_period :
    (∀ m : ℕ, m ≤ 719 → _u_seasonality (m + 720) = _u_seasonality m) ∧
    _u_seasonality 720 = _u_seasonality 0 ∧
    _u_seasonality 360 = 0.75 ∧ _u_seasonality 1080 = 0.75 ∧
    _u_seasonality 0 = 1.25 ∧ _u_seasonality 720 = 1.25 :=
  ⟨fun m _ => u_period m, by rw [u_0, u_720], u_360, u_1080, u_0, u_720⟩

end Claims

end PaperTrader
